import Mathlib

/-!
Verification of the sikre authentication/authorization core against its
specification.

The development shallowly embeds the three source files
`sikr/models/users.py`, `sikr/resources/auth/google.py` and
`sikr/resources/items.py`.  Python exceptions are explicit `Except`
results, the persistent store is an explicit `Store` value threaded
through the handlers, and the Falcon request handlers become pure
functions from a store (plus the request data) to an outcome and a new
store.  The token service (`sikre/resources/auth/utils.py` and
`decorators.py`) is not part of the sources, so it is modelled from the
spec where a claim needs it; every such definition is marked
`Modelled from the spec:`.
-/

namespace Sikre

/-- Python-level exception values that the embedded code can raise. -/
inductive PyErr where
  | attributeError (name : String)
  | valueError (msg : String)
  | keyError (key : String)
  | typeError (msg : String)
  | doesNotExist
  | integrityError
  | requestException
  deriving Repr, DecidableEq

/-- Python values an attribute lookup on a model row can produce
(strings, numbers, booleans, and None for nullable columns). -/
inductive PyVal where
  | str (s : String)
  | nat (n : Nat)
  | bool (b : Bool)
  | none
  deriving Repr, DecidableEq

/-- User row, from `sikr/models/users.py` lines 13-34: `username` (unique),
`master_password`, `email` (unique, nullable), the five social subject
columns (each unique, nullable), `join_date`, `is_active`.
`master_password` is nullable here following spec §3 ("credential hash
(nullable — absent for pure federated accounts)"); the storage layer that
would enforce the column constraint is not under the sources. -/
structure User where
  id : Nat
  username : String
  master_password : Option String
  email : Option String
  facebook : Option String
  google : Option String
  github : Option String
  linkedin : Option String
  twitter : Option String
  join_date : Nat
  is_active : Bool
  deriving Repr, DecidableEq

/-- Embed a nullable column as a Python value. -/
def optStr : Option String → PyVal
  | Option.none => PyVal.none
  | some s => PyVal.str s

/-- Python attribute lookup on a `User` row.  The declared columns come
from `users.py` lines 21-34; any other attribute name raises
`AttributeError`, exactly as in CPython for a missing attribute. -/
def User.getattr (u : User) (name : String) : Except PyErr PyVal :=
  if name = "id" then .ok (.nat u.id)
  else if name = "username" then .ok (.str u.username)
  else if name = "master_password" then .ok (optStr u.master_password)
  else if name = "email" then .ok (optStr u.email)
  else if name = "facebook" then .ok (optStr u.facebook)
  else if name = "google" then .ok (optStr u.google)
  else if name = "github" then .ok (optStr u.github)
  else if name = "linkedin" then .ok (optStr u.linkedin)
  else if name = "twitter" then .ok (optStr u.twitter)
  else if name = "join_date" then .ok (.nat u.join_date)
  else if name = "is_active" then .ok (.bool u.is_active)
  else .error (.attributeError name)

/-- Embedding of `User.check_master_password` (`users.py` lines 47-55):

    check = hmac.compare_digest(crypt.crypt(password, self.password), self.password)
    if not check:
        raise ValueError("hashed version doesn\x27t validate against original")
    else:
        return True

`cryptFn` abstracts the system `crypt.crypt`; it is a parameter because
the handler never reaches it: the code reads `self.password`, an
attribute that the `User` model does not declare (the column is
`master_password`), so the first step raises `AttributeError`. -/
def check_master_password (cryptFn : String → String → String) (u : User)
    (password : String) : Except PyErr Bool :=
  match u.getattr "password" with
  | .error e => .error e
  | .ok (.str stored) =>
      if cryptFn password stored = stored then .ok true
      else .error (.valueError "hashed version doesn\x27t validate against original")
  | .ok PyVal.none => .error (.typeError "crypt() argument 2 must be str, not None")
  | .ok _ => .error (.typeError "crypt() argument 2 must be str")

/-- Every call to `check_master_password` raises
`AttributeError("password")`: the attribute read happens before the
crypt comparison and the `User` model declares no `password` column. -/
theorem check_master_password_eq (cryptFn : String → String → String)
    (u : User) (password : String) :
    check_master_password cryptFn u password =
      .error (.attributeError "password") := rfl

/-- Sample user for concrete evaluations. -/
def mkUser (id : Nat) (username : String) (email google : Option String)
    (active : Bool) : User :=
  { id := id, username := username, master_password := Option.none,
    email := email, facebook := Option.none, google := google,
    github := Option.none, linkedin := Option.none, twitter := Option.none,
    join_date := 0, is_active := active }

/-- C3 counterexample: the claim says credential verification returns a
boolean and never raises; at the concrete user `mkUser 1 "alice" - - true`
with presented secret `"pw"`, the call raises `AttributeError` and
returns no boolean at all. -/
theorem C3_counterexample :
    check_master_password (fun p _ => p) (mkUser 1 "alice" Option.none Option.none true) "pw" =
      .error (.attributeError "password") ∧
    ∀ b : Bool,
      check_master_password (fun p _ => p) (mkUser 1 "alice" Option.none Option.none true) "pw" ≠
        .ok b := by
  refine ⟨rfl, ?_⟩
  intro b h
  cases h

/-- C3 (amended): for every presented secret and every stored credential,
`check_master_password` never returns a boolean verdict: every call
raises an exception (an `AttributeError` for the undefined attribute
`password`) instead of returning `false` on a mismatch; it has no side
effects. -/
theorem C3_check_master_password_always_raises
    (cryptFn : String → String → String) (u : User) (password : String) :
    check_master_password cryptFn u password =
      .error (.attributeError "password") ∧
    ∀ b : Bool, check_master_password cryptFn u password ≠ .ok b := by
  refine ⟨check_master_password_eq cryptFn u password, ?_⟩
  intro b h
  rw [check_master_password_eq] at h
  cases h

/-- C9 counterexample: at the concrete user `mkUser 2 "bob" - - true`
(stored hash modelled by `cryptFn` disagreeing on `"wrong"`), the
exception raised is `AttributeError("password")`, not the `ValueError`
whose message flags the failed hashed comparison, so the claim's message
clause fails. -/
theorem C9_counterexample :
    (fun p (_ : String) => p) "wrong" "h" ≠ "h" ∧
    check_master_password (fun p _ => p) (mkUser 2 "bob" Option.none Option.none true) "wrong" =
      .error (.attributeError "password") ∧
    PyErr.attributeError "password" ≠
      PyErr.valueError "hashed version doesn\x27t validate against original" := by
  refine ⟨by decide, rfl, by decide⟩

/-- C9 (amended): `check_master_password` never returns `True` and never
returns `False`; every call, mismatch included, raises the
`AttributeError` for the undefined attribute `password`, so the
hashed-comparison `ValueError` is unreachable. -/
theorem C9_check_master_password_never_value_error
    (cryptFn : String → String → String) (u : User) (password : String) :
    (∀ b : Bool, check_master_password cryptFn u password ≠ .ok b) ∧
    (∀ msg : String,
      check_master_password cryptFn u password ≠ .error (.valueError msg)) := by
  constructor
  · intro b h
    rw [check_master_password_eq] at h
    cases h
  · intro msg h
    rw [check_master_password_eq] at h
    cases h

/-- Item row.  The model class `sikre/models/items.py` is not under the
sources; its shape is reconstructed from how the handlers in
`resources/items.py` use it (`name`, `description`, `category`, `tags`,
and the many-to-many `allowed_users` relation) and spec §3 (Resource with
an allowed-principals set).  `allowed_users` holds user ids, matching
peewee row equality by primary key. -/
structure Item where
  id : Nat
  name : Option String
  description : String
  category : Option Nat
  tags : String
  allowed_users : List Nat
  deriving Repr, DecidableEq

/-- The persistent store: the user table and the item table (with the
item-user join relation folded into each item's `allowed_users`). -/
structure Store where
  users : List User
  items : List Item
  deriving Repr, DecidableEq

/-- `User.get(User.id == uid)`: first row with that id, or `DoesNotExist`. -/
def getUserById (s : Store) (uid : Nat) : Except PyErr User :=
  match s.users.find? (fun u => u.id == uid) with
  | some u => .ok u
  | Option.none => .error .doesNotExist

/-- `Item.get(Item.id == iid)`: first row with that id, or `DoesNotExist`. -/
def getItemById (s : Store) (iid : Nat) : Except PyErr Item :=
  match s.items.find? (fun it => it.id == iid) with
  | some it => .ok it
  | Option.none => .error .doesNotExist

/-- `item.save()`: UPDATE the row(s) with the item's primary key. -/
def saveItem (s : Store) (it : Item) : Store :=
  { s with items := s.items.map (fun x => if x.id = it.id then it else x) }

/-- `item.delete_instance()`: DELETE the row with the item's primary key. -/
def delete_instance (s : Store) (it : Item) : Store :=
  { s with items := s.items.filter (fun x => x.id ≠ it.id) }

/-- Outcome of a Falcon handler: either a normal return or a raised
exception.  Raised `falcon.HTTPError` subclasses are the first five
constructors (they are `Exception` subclasses, so an
`except Exception` clause catches them too); `py` is any other Python
exception propagating out of the handler (Falcon surfaces it as a
generic 500 Internal Server Error). -/
inductive Exc where
  | forbidden
  | badRequest
  | malformedJSON
  | serviceUnavailable
  | internalServerError
  | py (e : PyErr)
  deriving Repr, DecidableEq

/-- `json.dumps(item)` on a model row (`items.py` line 164): a peewee
model instance is not JSON serializable, so CPython raises `TypeError`. -/
def jsonDumpsItem (_ : Item) : Except PyErr String :=
  .error (.typeError "Object of type Item is not JSON serializable")

/-- Body of the `try` block of `DetailItem.on_get` (`items.py` lines
156-165): fetch the user and the item (`DoesNotExist` propagates as an
exception), raise `HTTPForbidden` when the user is not in the item's
`allowed_users` relation, otherwise serialize the item. -/
def DetailItem.on_get_tryBody (s : Store) (user_id : Nat) (id : Nat) :
    Except Exc String :=
  match getUserById s user_id with
  | .error e => .error (.py e)
  | .ok user =>
    match getItemById s id with
    | .error e => .error (.py e)
    | .ok item =>
      if user.id ∉ item.allowed_users then .error .forbidden
      else
        match jsonDumpsItem item with
        | .error e => .error (.py e)
        | .ok body => .ok body

/-- `DetailItem.on_get` (`items.py` lines 153-172).  `user_id` is the
token subject produced by the `login_required` guard.  The
`except Exception` clause at lines 166-172 catches every exception the
try block raises — including the `HTTPForbidden` raised at line 160 —
and raises `HTTPServiceUnavailable` instead. -/
def DetailItem.on_get (s : Store) (user_id : Nat) (id : Nat) :
    Except Exc String :=
  match DetailItem.on_get_tryBody s user_id id with
  | .ok body => .ok body
  | .error _ => .error .serviceUnavailable

/-- Parsed JSON body of a PUT request: for each updatable field, `some`
when the key is present and `none` when omitted (`category` may also be
present as JSON null, hence the nested option). -/
structure PutBody where
  name : Option String
  description : Option String
  category : Option (Option Nat)
  tags : Option String
  deriving Repr, DecidableEq

/-- Field merge of `DetailItem.on_put` (`items.py` lines 207-210):
`result_json.get(key, item.field)` — the new value when the key is
present, the current value otherwise. -/
def mergePut (b : PutBody) (it : Item) : Item :=
  { it with
    name := match b.name with
            | some v => some v
            | Option.none => it.name
    description := match b.description with
                   | some v => v
                   | Option.none => it.description
    category := match b.category with
                | some v => v
                | Option.none => it.category
    tags := match b.tags with
            | some v => v
            | Option.none => it.tags }

/-- Body of the final `try` block of `DetailItem.on_put` (`items.py`
lines 201-213): fetch the item, raise `HTTPForbidden` for a
non-principal, otherwise merge the body fields, save, and answer 200. -/
def DetailItem.on_put_tryBody (s : Store) (user : User) (id : Nat)
    (b : PutBody) : Except Exc (String × Store) :=
  match getItemById s id with
  | .error e => .error (.py e)
  | .ok item =>
    if user.id ∉ item.allowed_users then .error .forbidden
    else .ok ("Item updated", saveItem s (mergePut b item))

/-- `DetailItem.on_put` (`items.py` lines 174-220).  The first `try`
(lines 176-185) turns any failure to resolve the user into
`HTTPBadRequest`;  a JSON parse failure (lines 194-200, body `none`
here) raises a Malformed-JSON 400; the final `except Exception`
(lines 214-220) catches everything the last try block raises —
including the `HTTPForbidden` of line 204 — and raises
`HTTPServiceUnavailable`.  The store is returned unchanged on every
error path. -/
def DetailItem.on_put (s : Store) (user_id : Nat) (id : Nat)
    (body : Option PutBody) : Except Exc String × Store :=
  match getUserById s user_id with
  | .error _ => (.error .badRequest, s)
  | .ok user =>
    match body with
    | Option.none => (.error .malformedJSON, s)
    | some b =>
      match DetailItem.on_put_tryBody s user id b with
      | .ok r => (.ok r.1, r.2)
      | .error _ => (.error .serviceUnavailable, s)

/-- Body of the final `try` block of `DetailItem.on_delete` (`items.py`
lines 234-242): fetch the item, raise `HTTPForbidden` for a
non-principal, otherwise delete the row and answer 200. -/
def DetailItem.on_delete_tryBody (s : Store) (user : User) (id : Nat) :
    Except Exc (String × Store) :=
  match getItemById s id with
  | .error e => .error (.py e)
  | .ok item =>
    if user.id ∉ item.allowed_users then .error .forbidden
    else .ok ("Deletion successful", delete_instance s item)

/-- `DetailItem.on_delete` (`items.py` lines 222-250), with the same
shape as `on_put`: user-resolution failures become `HTTPBadRequest`,
and the final `except Exception` (lines 244-250) converts everything the
try block raises — the `HTTPForbidden` of line 237 included — into
`HTTPServiceUnavailable`. -/
def DetailItem.on_delete (s : Store) (user_id : Nat) (id : Nat) :
    Except Exc String × Store :=
  match getUserById s user_id with
  | .error _ => (.error .badRequest, s)
  | .ok user =>
    match DetailItem.on_delete_tryBody s user id with
    | .ok r => (.ok r.1, r.2)
    | .error _ => (.error .serviceUnavailable, s)

/-- Sample item for concrete evaluations. -/
def mkItem (id : Nat) (name : String) (allowed : List Nat) : Item :=
  { id := id, name := some name, description := "", category := Option.none,
    tags := "", allowed_users := allowed }

/-- Store for the C1 evaluation: users alice (id 1) and bob (id 2), one
item (id 1) whose allowed-principals set is `[2]` — alice is
authenticated but not a principal of the item. -/
def storeC1 : Store :=
  { users := [mkUser 1 "alice" Option.none Option.none true,
              mkUser 2 "bob" Option.none Option.none true],
    items := [mkItem 1 "secret" [2]] }

/-- C1: at the concrete failing input (authenticated non-member alice,
user id 1, requesting item 1), all three resource-scoped handlers fail
with `HTTPServiceUnavailable` — not the Forbidden denial the claim
requires — because the `except Exception` clauses catch the
`HTTPForbidden` the handlers themselves raise; the store (hence the
item) is left unchanged. -/
theorem C1_nonmember_gets_service_unavailable :
    DetailItem.on_get storeC1 1 1 = .error .serviceUnavailable ∧
    DetailItem.on_put storeC1 1 1
        (some { name := some "x", description := Option.none,
                category := Option.none, tags := Option.none }) =
      (.error .serviceUnavailable, storeC1) ∧
    DetailItem.on_delete storeC1 1 1 = (.error .serviceUnavailable, storeC1) ∧
    Exc.serviceUnavailable ≠ Exc.forbidden := by
  refine ⟨rfl, rfl, rfl, by decide⟩

/-- C10: for every authorized PUT whose body omits some of the fields
name, description, category, tags, the omitted fields keep their
previous values, the fields present in the body take the supplied
values, the item's identity and allowed-principals relation are
untouched, the user table is untouched, and every item other than the
addressed one is still in the store unchanged. -/
theorem C10_on_put_partial_update (s : Store) (uid iid : Nat) (b : PutBody)
    (user : User) (item : Item)
    (hu : getUserById s uid = .ok user)
    (hi : getItemById s iid = .ok item)
    (hm : user.id ∈ item.allowed_users) :
    DetailItem.on_put s uid iid (some b) =
      (.ok "Item updated", saveItem s (mergePut b item)) ∧
    (b.name = Option.none → (mergePut b item).name = item.name) ∧
    (b.description = Option.none →
      (mergePut b item).description = item.description) ∧
    (b.category = Option.none → (mergePut b item).category = item.category) ∧
    (b.tags = Option.none → (mergePut b item).tags = item.tags) ∧
    (∀ v, b.name = some v → (mergePut b item).name = some v) ∧
    (∀ v, b.description = some v → (mergePut b item).description = v) ∧
    (∀ v, b.category = some v → (mergePut b item).category = v) ∧
    (∀ v, b.tags = some v → (mergePut b item).tags = v) ∧
    (mergePut b item).id = item.id ∧
    (mergePut b item).allowed_users = item.allowed_users ∧
    (saveItem s (mergePut b item)).users = s.users ∧
    (∀ x ∈ s.items, x.id ≠ item.id →
      x ∈ (saveItem s (mergePut b item)).items) := by
  have hid : (mergePut b item).id = item.id := rfl
  refine ⟨?_, ?_, ?_, ?_, ?_, ?_, ?_, ?_, ?_, hid, rfl, rfl, ?_⟩
  · simp [DetailItem.on_put, hu, DetailItem.on_put_tryBody, hi, hm]
  · intro h; simp [mergePut, h]
  · intro h; simp [mergePut, h]
  · intro h; simp [mergePut, h]
  · intro h; simp [mergePut, h]
  · intro v h; simp [mergePut, h]
  · intro v h; simp [mergePut, h]
  · intro v h; simp [mergePut, h]
  · intro v h; simp [mergePut, h]
  · intro x hx hne
    refine List.mem_map.mpr ⟨x, hx, ?_⟩
    rw [if_neg]
    rw [hid]
    exact hne

/-- Store for the C10 evaluation: carol (id 1) is a principal of both
items. -/
def storeC10 : Store :=
  { users := [mkUser 1 "carol" Option.none Option.none true],
    items := [mkItem 1 "old" [1], mkItem 2 "other" [1]] }

/-- Body for the C10 evaluation: only `name` is present. -/
def putBodyC10 : PutBody :=
  { name := some "new", description := Option.none,
    category := Option.none, tags := Option.none }

/-- C10 witness: concrete authorized PUT of item 1 by carol with only
the name present. -/
theorem C10_witness :
    DetailItem.on_put storeC10 1 1 (some putBodyC10) =
      (.ok "Item updated",
       saveItem storeC10 (mergePut putBodyC10 (mkItem 1 "old" [1]))) ∧
    (mergePut putBodyC10 (mkItem 1 "old" [1])).description =
      (mkItem 1 "old" [1]).description ∧
    (mergePut putBodyC10 (mkItem 1 "old" [1])).name = some "new" ∧
    mkItem 2 "other" [1] ∈
      (saveItem storeC10 (mergePut putBodyC10 (mkItem 1 "old" [1]))).items := by
  have h := C10_on_put_partial_update storeC10 1 1 putBodyC10
    (mkUser 1 "carol" Option.none Option.none true) (mkItem 1 "old" [1])
    rfl rfl (by decide)
  refine ⟨h.1, h.2.2.1 rfl, h.2.2.2.2.2.1 "new" rfl, ?_⟩
  exact h.2.2.2.2.2.2.2.2.2.2.2.2 (mkItem 2 "other" [1]) (by decide) (by decide)

/-- Parsed JSON body of the item-creation POST (`items.py` lines
112-115): for each field, `some` when the key is present in the JSON
body and `none` when omitted. -/
structure PostBody where
  name : Option String
  description : Option String
  category : Option Nat
  tags : Option String
  deriving Repr, DecidableEq

/-- Auto-increment primary key for a new item row. -/
def freshItemId (s : Store) : Nat :=
  (s.items.map Item.id).foldr max 0 + 1

/-- The row built by `Item.create` (`items.py` lines 112-115):
`name=result_json.get('name')`,
`description=result_json.get("description", '')`,
`category=result_json.get("category")`,
`tags=result_json.get("tags", '')`; the allowed-principals relation of
a fresh row is empty. -/
def newItem (s : Store) (b : PostBody) : Item :=
  { id := freshItemId s, name := b.name,
    description := match b.description with
                   | some v => v
                   | Option.none => "",
    category := b.category,
    tags := match b.tags with
            | some v => v
            | Option.none => "",
    allowed_users := [] }

/-- `Item.create(...)` (`items.py` line 112): peewee `create` INSERTs
and persists the row immediately; the allowed-principals relation is
still empty at this point. -/
def Item.create (s : Store) (b : PostBody) : Item × Store :=
  (newItem s b, { s with items := s.items ++ [newItem s b] })

/-- `new_item.allowed_users.add(user)` (`items.py` line 117): insert the
(item, user) pair into the join relation — a separate write after the
row INSERT. -/
def addAllowedUser (s : Store) (it : Item) (uid : Nat) : Store :=
  { s with items := s.items.map (fun x =>
      if x.id = it.id then { x with allowed_users := x.allowed_users ++ [uid] }
      else x) }

/-- `Items.on_post` (`items.py` lines 76-122): resolve the user (failure
raises `HTTPBadRequest`, lines 81-91), parse the body (`none` models a
JSON parse failure, lines 102-109), then `Item.create`, `new_item.save()`
and `allowed_users.add(user)` in sequence (lines 111-118). -/
def Items.on_post (s : Store) (user_id : Nat) (body : Option PostBody) :
    Except Exc Unit × Store :=
  match getUserById s user_id with
  | .error _ => (.error .badRequest, s)
  | .ok user =>
    match body with
    | Option.none => (.error .malformedJSON, s)
    | some b =>
      (.ok (),
       addAllowedUser (saveItem (Item.create s b).2 (Item.create s b).1)
         (Item.create s b).1 user.id)

/-- The sequence of persisted store states observable during a run of
`Items.on_post` with a valid body: initial, after the `Item.create`
INSERT (line 112), after `new_item.save()` (line 116), after the grant
(line 117). -/
def Items.on_post_states (s : Store) (user_id : Nat) (b : PostBody) :
    List Store :=
  match getUserById s user_id with
  | .error _ => [s]
  | .ok user =>
    [s, (Item.create s b).2,
     saveItem (Item.create s b).2 (Item.create s b).1,
     addAllowedUser (saveItem (Item.create s b).2 (Item.create s b).1)
       (Item.create s b).1 user.id]

/-- Store for the C5 evaluation: one user dora (id 1), no items yet. -/
def storeC5 : Store :=
  { users := [mkUser 1 "dora" Option.none Option.none true], items := [] }

/-- Body for the C5 evaluation. -/
def postBodyC5 : PostBody :=
  { name := some "n", description := Option.none, category := Option.none,
    tags := Option.none }

/-- C5 counterexample: the claim says that at no observable point does a
persisted item exist with an empty allowed-principals set; in the
concrete successful run of `Items.on_post` by dora there is an
observable persisted state (right after the `Item.create` INSERT) whose
item has an empty allowed-principals set. -/
theorem C5_counterexample :
    (Items.on_post storeC5 1 (some postBodyC5)).1 = .ok () ∧
    ∃ t ∈ Items.on_post_states storeC5 1 postBodyC5,
      ∃ it ∈ t.items, it.allowed_users = [] := by
  refine ⟨rfl, ?_⟩
  refine ⟨(Item.create storeC5 postBodyC5).2, ?_, newItem storeC5 postBodyC5, ?_, rfl⟩
  · exact by decide
  · simp [Item.create]

/-- Items table of a successful `Items.on_post` run, written out: the
new row is INSERTed, then re-saved, then the grant updates its
allowed-principals relation. -/
theorem Items.on_post_items_eq (s : Store) (uid : Nat) (b : PostBody)
    (user : User) (hu : getUserById s uid = .ok user) :
    (Items.on_post s uid (some b)).2.items =
      ((s.items ++ [newItem s b]).map (fun x =>
          if x.id = (newItem s b).id then newItem s b else x)).map (fun x =>
        if x.id = (newItem s b).id then
          { x with allowed_users := x.allowed_users ++ [user.id] }
        else x) := by
  simp [Items.on_post, hu, Item.create, saveItem, addAllowedUser]

/-- C5 (amended): after a successful item creation the creating user is
a member of the new item's allowed-principals set (indeed its only
member); but creation and grant are two separate persisted writes, so
the run passes through an observable persisted state in which the new
item has an empty allowed-principals set — creation and the creator's
grant are not atomic. -/
theorem C5_creator_granted_but_not_atomic (s : Store) (uid : Nat)
    (b : PostBody) (user : User) (hu : getUserById s uid = .ok user) :
    (Items.on_post s uid (some b)).1 = .ok () ∧
    (∃ it2 ∈ (Items.on_post s uid (some b)).2.items,
      it2.id = freshItemId s ∧ it2.allowed_users = [user.id]) ∧
    (∃ t ∈ Items.on_post_states s uid b, ∃ it ∈ t.items,
      it.allowed_users = []) := by
  refine ⟨?_, ?_, ?_⟩
  · simp [Items.on_post, hu]
  · refine ⟨{ newItem s b with allowed_users := [user.id] }, ?_, rfl, rfl⟩
    rw [Items.on_post_items_eq s uid b user hu]
    refine List.mem_map.mpr ⟨newItem s b, ?_, by simp [newItem]⟩
    refine List.mem_map.mpr ⟨newItem s b, by simp, by simp⟩
  · refine ⟨(Item.create s b).2, ?_, newItem s b, by simp [Item.create], rfl⟩
    simp [Items.on_post_states, hu]

/-- C5 witness: the amended statement at the concrete store and body. -/
theorem C5_witness :
    (Items.on_post storeC5 1 (some postBodyC5)).1 = .ok () ∧
    (∃ it2 ∈ (Items.on_post storeC5 1 (some postBodyC5)).2.items,
      it2.id = freshItemId storeC5 ∧ it2.allowed_users = [1]) ∧
    (∃ t ∈ Items.on_post_states storeC5 1 postBodyC5, ∃ it ∈ t.items,
      it.allowed_users = []) :=
  C5_creator_granted_but_not_atomic storeC5 1 postBodyC5
    (mkUser 1 "dora" Option.none Option.none true) rfl

/-- Request body of the Google login POST (`google.py` lines 29-35):
`data['clientId']`, `data['redirectUri']`, `data['code']` — a missing
key raises `KeyError`. -/
structure GoogleData where
  clientId : Option String
  redirectUri : Option String
  code : Option String
  deriving Repr, DecidableEq

/-- JSON body returned by the provider's token endpoint; the code reads
`token['access_token']` (`google.py` line 41), which raises `KeyError`
when the provider answered with an error body instead. -/
structure TokenResponse where
  access_token : Option String
  deriving Repr, DecidableEq

/-- JSON profile returned by the provider's people endpoint; the code
reads `profile['sub']`, `profile['name']`, `profile['email']`
(`google.py` lines 50-55), each raising `KeyError` when absent. -/
structure GoogleProfile where
  sub : Option String
  name : Option String
  email : Option String
  deriving Repr, DecidableEq

/-- `User.select().where(User.google == sub).get()`: first user row
whose google subject column equals the claim's subject id. -/
def firstUserWithGoogle (s : Store) (sub : String) : Option User :=
  s.users.find? (fun u => u.google == some sub)

/-- Auto-increment primary key for a new user row. -/
def freshUserId (s : Store) : Nat :=
  (s.users.map User.id).foldr max 0 + 1

/-- The row built by `User.create(google=..., username=..., email=...)`
(`google.py` line 55): only those three columns are supplied, the
others take their model defaults (`is_active` defaults to true,
`users.py` line 34). -/
def newGoogleUser (s : Store) (google username email : String) : User :=
  { id := freshUserId s, username := username, master_password := Option.none,
    email := some email, facebook := Option.none, google := some google,
    github := Option.none, linkedin := Option.none, twitter := Option.none,
    join_date := 0, is_active := true }

/-- `User.create` (`google.py` line 55): INSERT under the unique
constraints that `users.py` lines 21-27 declare on `username`, `email`
and `google`; a violated constraint raises `IntegrityError`, which the
handler does not catch. -/
def User.create (s : Store) (google username email : String) :
    Except PyErr (User × Store) :=
  if s.users.any (fun u => u.username == username) then .error .integrityError
  else if s.users.any (fun u => u.email == some email) then .error .integrityError
  else if s.users.any (fun u => u.google == some google) then .error .integrityError
  else .ok (newGoogleUser s google username email,
            { s with users := s.users ++ [newGoogleUser s google username email] })

/-- The resolve-or-create block of `GoogleAuth.on_post` (`google.py`
lines 49-57): look the user up by the google subject column; the
`except User.DoesNotExist` clause catches only the failed lookup and
creates the user from the profile.  A missing profile key raises
`KeyError` (uncaught: the clause catches `DoesNotExist` alone), and a
uniqueness violation on create raises `IntegrityError` (uncaught). -/
def resolveOrCreate (s : Store) (profile : GoogleProfile) :
    Except PyErr User × Store :=
  match profile.sub with
  | Option.none => (.error (.keyError "sub"), s)
  | some sb =>
    match firstUserWithGoogle s sb with
    | some u => (.ok u, s)
    | Option.none =>
      match profile.name with
      | Option.none => (.error (.keyError "name"), s)
      | some nm =>
        match profile.email with
        | Option.none => (.error (.keyError "email"), s)
        | some em =>
          match User.create s sb nm em with
          | .error e => (.error e, s)
          | .ok r => (.ok r.1, r.2)

/-- Modelled from the spec: the session token of §3/§4.4
(`sikre/resources/auth/utils.py` is not under the sources): signed,
self-contained, holding subject = user id, issued-at and expiry. -/
structure Token where
  sub : Nat
  iat : Nat
  exp : Nat
  sig : String
  deriving Repr, DecidableEq

/-- Modelled from the spec: the signature over the token payload with
the server-held signing key (§4.4, §6 Configuration). -/
def sign (key : String) (sub iat exp : Nat) : String :=
  key ++ "." ++ toString sub ++ "." ++ toString iat ++ "." ++ toString exp

/-- Modelled from the spec: `issue(user) -> Token`
(`create_jwt_token`, not under the sources): a signed token whose
subject claim is the user's internal id, valid for a fixed window from
issuance (§4.4). -/
def issue (key : String) (validity : Nat) (now : Nat) (u : User) : Token :=
  { sub := u.id, iat := now, exp := now + validity,
    sig := sign key u.id now (now + validity) }

/-- Denials the Request Guard can produce (§4.6, §7). -/
inductive AuthError where
  | missingCredential
  | tokenInvalid
  deriving Repr, DecidableEq

/-- `User.get(User.id == uid)` as an optional lookup. -/
def getUserByIdOpt (s : Store) (uid : Nat) : Option User :=
  s.users.find? (fun u => u.id == uid)

/-- Modelled from the spec: `validate(token) -> User | AuthError`
(`parse_token`, not under the sources): decode, verify the signature
against the signing key, check expiry, load the referenced user and
confirm the active flag; any failure at any step collapses to the
single generic `tokenInvalid` error (§4.4). -/
def validate (key : String) (now : Nat) (s : Store) (t : Token) :
    Except AuthError User :=
  if t.sig ≠ sign key t.sub t.iat t.exp then .error .tokenInvalid
  else if t.exp ≤ now then .error .tokenInvalid
  else
    match getUserByIdOpt s t.sub with
    | Option.none => .error .tokenInvalid
    | some u => if u.is_active then .ok u else .error .tokenInvalid

/-- Modelled from the spec: the Request Guard (§4.6,
`decorators.login_required`, not under the sources): extract the bearer
token (`missingCredential` when absent), validate it, and only on
success hand the resolved user to the handler. -/
def requestGuard {A : Type} (key : String) (now : Nat) (s : Store)
    (t : Option Token) (handler : User → A) : Except AuthError A :=
  match t with
  | Option.none => .error .missingCredential
  | some tok =>
    match validate key now s tok with
    | .error e => .error e
    | .ok u => .ok (handler u)

/-- `GoogleAuth.on_post` (`google.py` lines 16-73).  The JSON request
body, the outcome of the code-for-token exchange (`requests.post` +
`json.loads`, lines 39-40) and the outcome of the profile fetch
(`requests.get` + `json.loads`, lines 45-46) are inputs; a `.error` for
either outbound call models a raised requests/JSON exception, which no
`try` in the handler catches.  After resolve-or-create the handler
issues a JWT for the user (line 59, modelled by `issue`). -/
def GoogleAuth.on_post (s : Store) (data : GoogleData)
    (exchange : Except PyErr TokenResponse)
    (profileFetch : Except PyErr GoogleProfile)
    (key : String) (validity now : Nat) : Except Exc Token × Store :=
  match data.clientId with
  | Option.none => (.error (.py (.keyError "clientId")), s)
  | some _ =>
  match data.redirectUri with
  | Option.none => (.error (.py (.keyError "redirectUri")), s)
  | some _ =>
  match data.code with
  | Option.none => (.error (.py (.keyError "code")), s)
  | some _ =>
  match exchange with
  | .error e => (.error (.py e), s)
  | .ok tr =>
  match tr.access_token with
  | Option.none => (.error (.py (.keyError "access_token")), s)
  | some _ =>
  match profileFetch with
  | .error e => (.error (.py e), s)
  | .ok profile =>
  match resolveOrCreate s profile with
  | (.error e, s2) => (.error (.py e), s2)
  | (.ok u, s2) => (.ok (issue key validity now u), s2)

/-- A `find?` that fails on the first list continues on the second. -/
theorem find?_append_of_none {α : Type} (p : α → Bool) (l1 l2 : List α)
    (h : l1.find? p = Option.none) : (l1 ++ l2).find? p = l2.find? p := by
  induction l1 with
  | nil => simp
  | cons a t ih =>
    cases hpa : p a with
    | true => rw [List.find?_cons_of_pos _ hpa] at h; cases h
    | false =>
      have hpa2 : ¬ p a = true := by simp [hpa]
      rw [List.find?_cons_of_neg _ hpa2] at h
      rw [List.cons_append, List.find?_cons_of_neg _ hpa2]
      exact ih h

/-- C4: the federated resolve-or-create of `GoogleAuth.on_post` (lines
49-57) is idempotent: once a call with a given subject id has succeeded
and returned user `u` with store `s1`, calling it again on `s1` with the
same claim returns the very same user (hence the same internal id) and
leaves the store unchanged — no second record is created. -/
theorem C4_resolveOrCreate_idempotent (s s1 : Store) (p : GoogleProfile)
    (u : User) (h1 : resolveOrCreate s p = (.ok u, s1)) :
    resolveOrCreate s1 p = (.ok u, s1) := by
  cases hsub : p.sub with
  | none =>
    unfold resolveOrCreate at h1
    rw [hsub] at h1
    simp at h1
  | some sb =>
    unfold resolveOrCreate at h1 ⊢
    simp only [hsub] at h1 ⊢
    cases hf : firstUserWithGoogle s sb with
    | some u0 =>
      simp only [hf, Prod.mk.injEq, Except.ok.injEq] at h1
      obtain ⟨h1a, h1b⟩ := h1
      subst h1a
      subst h1b
      simp only [hf]
    | none =>
      simp only [hf] at h1
      cases hn : p.name with
      | none =>
        rw [hn] at h1
        simp at h1
      | some nm =>
        simp only [hn] at h1 ⊢
        cases he : p.email with
        | none =>
          rw [he] at h1
          simp at h1
        | some em =>
          simp only [he] at h1 ⊢
          cases hc : User.create s sb nm em with
          | error e =>
            simp only [hc] at h1
            simp at h1
          | ok r =>
            simp only [hc, Prod.mk.injEq, Except.ok.injEq] at h1
            obtain ⟨h1a, h1b⟩ := h1
            unfold User.create at hc
            split at hc
            · simp at hc
            · split at hc
              · simp at hc
              · split at hc
                · simp at hc
                · injection hc with hc2
                  have hlook : firstUserWithGoogle s1 sb = some u := by
                    have hs1 : s1 =
                        { s with users := s.users ++ [newGoogleUser s sb nm em] } := by
                      rw [← h1b, ← congrArg Prod.snd hc2]
                    rw [hs1]
                    show List.find? _ (s.users ++ [newGoogleUser s sb nm em]) = some u
                    rw [find?_append_of_none _ _ _ hf]
                    have hwho : u = newGoogleUser s sb nm em := by
                      rw [← h1a, ← congrArg Prod.fst hc2]
                    rw [hwho]
                    rw [List.find?_cons_of_pos _ (by simp [newGoogleUser])]
                  simp only [hlook]

/-- Empty store. -/
def emptyStore : Store := { users := [], items := [] }

/-- Profile for the C4 evaluation. -/
def profC4 : GoogleProfile :=
  { sub := some "g-sub-1", name := some "Eve", email := some "eve@x" }

/-- The user the first C4 login creates. -/
def userC4 : User := newGoogleUser emptyStore "g-sub-1" "Eve" "eve@x"

/-- Store after the first C4 login. -/
def storeC4b : Store := { users := [userC4], items := [] }

/-- C4 witness: on the concrete store produced by a successful first
login with subject `g-sub-1`, a second login with the same claim
resolves the same user and changes nothing. -/
theorem C4_witness :
    resolveOrCreate storeC4b profC4 = (.ok userC4, storeC4b) :=
  C4_resolveOrCreate_idempotent emptyStore storeC4b profC4 userC4 rfl

/-- Well-formed login request body used in concrete evaluations. -/
def dataOk : GoogleData :=
  { clientId := some "c", redirectUri := some "r", code := some "x" }

/-- Successful token-endpoint answer used in concrete evaluations. -/
def tokenOk : TokenResponse := { access_token := some "at" }

/-- C6 counterexample: the claim says a failed code-for-token exchange
aborts the login with a propagated upstream-auth-failure (503-class)
error; at the concrete input where `requests.post` raises, the handler
instead aborts with the uncaught requests exception (surfaced by the
framework as a generic 500), which is not the 503 upstream-failure
outcome — though indeed no user record is created. -/
theorem C6_counterexample :
    GoogleAuth.on_post emptyStore dataOk (.error .requestException)
        (.ok profC4) "k" 10 0 =
      (.error (.py .requestException), emptyStore) ∧
    Exc.py .requestException ≠ Exc.serviceUnavailable := by
  exact ⟨rfl, by decide⟩

/-- C6 (amended): for every login attempt with a well-formed request
body, if the code-for-token exchange raises, or its answer lacks
`access_token`, or the profile fetch raises, or the profile lacks a
stable subject id, then the whole attempt aborts with an uncaught
Python exception (a generic internal error, not a classified
upstream-auth-failure outcome) and the store is unchanged — no user
record is created or partially created. -/
theorem C6_upstream_failure_aborts_uncaught (s : Store) (d : GoogleData)
    (c r x : String) (hc : d.clientId = some c) (hr : d.redirectUri = some r)
    (hx : d.code = some x) (tr : TokenResponse) (a : String)
    (ha : tr.access_token = some a) :
    (∀ e pf key v now,
      GoogleAuth.on_post s d (.error e) pf key v now = (.error (.py e), s)) ∧
    (∀ tr2 pf key v now, tr2.access_token = Option.none →
      GoogleAuth.on_post s d (.ok tr2) pf key v now =
        (.error (.py (.keyError "access_token")), s)) ∧
    (∀ e key v now,
      GoogleAuth.on_post s d (.ok tr) (.error e) key v now =
        (.error (.py e), s)) ∧
    (∀ prof key v now, prof.sub = Option.none →
      GoogleAuth.on_post s d (.ok tr) (.ok prof) key v now =
        (.error (.py (.keyError "sub")), s)) ∧
    (∀ e, Exc.py e ≠ Exc.serviceUnavailable) := by
  refine ⟨?_, ?_, ?_, ?_, ?_⟩
  · intro e pf key v now
    simp [GoogleAuth.on_post, hc, hr, hx]
  · intro tr2 pf key v now h
    simp [GoogleAuth.on_post, hc, hr, hx, h]
  · intro e key v now
    simp [GoogleAuth.on_post, hc, hr, hx, ha]
  · intro prof key v now h
    simp [GoogleAuth.on_post, hc, hr, hx, ha, resolveOrCreate, h]
  · intro e h
    cases h

/-- C6 witness: the amended statement evaluated at a concrete
well-formed request: a raised profile fetch aborts with the uncaught
exception and an empty store stays empty. -/
theorem C6_witness :
    GoogleAuth.on_post emptyStore dataOk (.ok tokenOk)
        (.error .requestException) "k" 10 0 =
      (.error (.py .requestException), emptyStore) ∧
    GoogleAuth.on_post emptyStore dataOk (.ok tokenOk)
        (.ok { sub := Option.none, name := some "n", email := some "e" })
        "k" 10 0 =
      (.error (.py (.keyError "sub")), emptyStore) := by
  have h := C6_upstream_failure_aborts_uncaught emptyStore dataOk "c" "r" "x"
    rfl rfl rfl tokenOk "at" rfl
  exact ⟨h.2.2.1 .requestException "k" 10 0,
         h.2.2.2.1 { sub := Option.none, name := some "n", email := some "e" }
           "k" 10 0 rfl⟩

/-- Existing local account holding the colliding email. -/
def userC7 : User := mkUser 1 "frank" (some "taken@x") Option.none true

/-- Store for the C7 evaluation. -/
def storeC7 : Store := { users := [userC7], items := [] }

/-- First-login profile whose email collides with frank's. -/
def profC7 : GoogleProfile :=
  { sub := some "g-new", name := some "Frank2", email := some "taken@x" }

/-- C7 counterexample: the claim says a first federated login whose
email is already taken still creates the user (without the email) and
succeeds; at the concrete input the unique-email INSERT raises
`IntegrityError`, the login aborts with that uncaught exception, and no
user is created. -/
theorem C7_counterexample :
    resolveOrCreate storeC7 profC7 = (.error .integrityError, storeC7) ∧
    GoogleAuth.on_post storeC7 dataOk (.ok tokenOk) (.ok profC7) "k" 10 0 =
      (.error (.py .integrityError), storeC7) := by
  exact ⟨rfl, rfl⟩

/-- C7 (amended): on a first federated login (no user yet holds the
subject id) whose email — or whose display-name username — collides
with an existing account, `User.create` raises an uncaught
`IntegrityError`: the login fails and no user record is created; no
email-dropping and no username disambiguation happens. -/
theorem C7_collision_fails_login (s : Store) (p : GoogleProfile)
    (sb nm em : String) (hs : p.sub = some sb) (hn : p.name = some nm)
    (he : p.email = some em)
    (hg : firstUserWithGoogle s sb = Option.none)
    (hcol : s.users.any (fun v => v.email == some em) = true ∨
            s.users.any (fun v => v.username == nm) = true) :
    resolveOrCreate s p = (.error .integrityError, s) := by
  unfold resolveOrCreate
  simp only [hs, hg, hn, he]
  unfold User.create
  rcases hcol with hcol | hcol
  · cases hu2 : s.users.any (fun v => v.username == nm) with
    | true => simp [hu2]
    | false => simp [hu2, hcol]
  · simp [hcol]

/-- C7 witness: the amended statement at the concrete colliding-email
input. -/
theorem C7_witness :
    resolveOrCreate storeC7 profC7 = (.error .integrityError, storeC7) :=
  C7_collision_fails_login storeC7 profC7 "g-new" "Frank2" "taken@x"
    rfl rfl rfl rfl (Or.inl (by decide))

/-- C2: a token whose embedded subject resolves to a user whose active
flag is false is rejected with the generic `tokenInvalid` error — even
when the signature verifies and the expiry has not passed (the theorem
assumes nothing about either) — and the Request Guard never hands such
a user to a handler. -/
theorem C2_inactive_user_token_invalid (key : String) (now : Nat)
    (s : Store) (t : Token) (u : User)
    (hl : getUserByIdOpt s t.sub = some u) (hi : u.is_active = false) :
    validate key now s t = .error .tokenInvalid ∧
    ∀ (A : Type) (h : User → A),
      requestGuard key now s (some t) h = .error .tokenInvalid := by
  have hv : validate key now s t = .error .tokenInvalid := by
    unfold validate
    split
    · rfl
    · split
      · rfl
      · rw [hl]
        simp [hi]
  refine ⟨hv, ?_⟩
  intro A h
  simp [requestGuard, hv]

/-- Deactivated user for the C2 evaluation. -/
def userC2 : User := mkUser 3 "gus" Option.none Option.none false

/-- Store for the C2 evaluation. -/
def storeC2 : Store := { users := [userC2], items := [] }

/-- Token for the C2 evaluation: correctly signed for gus at time 0,
valid for 10, checked at time 5 — well-formed and unexpired. -/
def tokC2 : Token := issue "k" 10 0 userC2

/-- C2 witness: the concrete well-formed, unexpired token of a
deactivated user is rejected and the guard short-circuits. -/
theorem C2_witness :
    validate "k" 5 storeC2 tokC2 = .error .tokenInvalid ∧
    requestGuard "k" 5 storeC2 (some tokC2) (fun u => u.id) =
      .error .tokenInvalid := by
  have h := C2_inactive_user_token_invalid "k" 5 storeC2 tokC2 userC2 rfl rfl
  exact ⟨h.1, h.2 Nat (fun u => u.id)⟩

/-- C8: issuing a token for a user and immediately validating it (same
instant, positive validity window, subject resolvable, user active)
returns the original user, and the token's subject claim is the user's
internal id. -/
theorem C8_issue_validate_roundtrip (key : String) (validity now : Nat)
    (s : Store) (u : User)
    (hl : getUserByIdOpt s u.id = some u) (ha : u.is_active = true)
    (hv : 0 < validity) :
    validate key now s (issue key validity now u) = .ok u ∧
    (issue key validity now u).sub = u.id := by
  refine ⟨?_, rfl⟩
  have hne : ¬ (now + validity ≤ now) := by omega
  simp [validate, issue, hne, hl, ha]

/-- Active user for the C8 evaluation. -/
def userC8 : User := mkUser 4 "hana" Option.none Option.none true

/-- Store for the C8 evaluation. -/
def storeC8 : Store := { users := [userC8], items := [] }

/-- C8 witness: the concrete round-trip at time 0 with a validity of
10. -/
theorem C8_witness :
    validate "k" 0 storeC8 (issue "k" 10 0 userC8) = .ok userC8 ∧
    (issue "k" 10 0 userC8).sub = userC8.id := by
  exact C8_issue_validate_roundtrip "k" 10 0 storeC8 userC8 rfl rfl (by decide)

end Sikre
